import Mathlib

/-!
# Verification of the app-logger facade (`src/index.js`)

A shallow embedding of the leveled logging facade: the severity table
`LOGGING_LEVELS`, the timestamp formatter `formatDate` (a model of
`Date.toLocaleString` for the two locales the repository exercises,
`de-DE` and `en-US`), the record formatter `createLogString`, the route
deriver `_generateRoute` (including the JavaScript `String.split`
semantics it relies on), the rotating-file filename construction of
`_createWinstonLogger`, and the facade state machine
(`constructor` / `genLog` / `close` / `getConfig` / `updateConfig`).
JavaScript values that can appear as a log payload are modelled by the
inductive type `JSValue` together with JavaScript truthiness and a model
of `JSON.stringify`.
-/

/-- The seven severity level names, the closed enumeration from
`LoggerConfig.logTracelevel` and `LOGGING_LEVELS.levels` in the source. -/
inductive Level where
  | exception
  | error
  | warn
  | info
  | http
  | trace
  | debug
deriving DecidableEq, Repr

/-- `LOGGING_LEVELS.levels`: the integer rank of each severity
(source lines 169-176). Lower means more severe. -/
def LOGGING_LEVELS_levels : Level → Nat
  | .exception => 0
  | .error => 1
  | .warn => 2
  | .info => 3
  | .http => 4
  | .trace => 5
  | .debug => 6

/-- The level name string, as winston presents it in `info.level`. -/
def levelName : Level → String
  | .exception => "exception"
  | .error => "error"
  | .warn => "warn"
  | .info => "info"
  | .http => "http"
  | .trace => "trace"
  | .debug => "debug"

/-- The level filter of the winston engine as configured by
`_createWinstonLogger` (source lines 296-300): a record logged at
`level` is emitted iff its rank is at most the rank of the configured
threshold `logTracelevel`. -/
def isEnabled (level threshold : Level) : Bool :=
  LOGGING_LEVELS_levels level ≤ LOGGING_LEVELS_levels threshold

/-- A calendar instant in the local time zone: the components
`Date.toLocaleString` renders under `DATE_OPTIONS`. -/
structure Instant where
  year : Nat
  month : Nat
  day : Nat
  hour : Nat
  minute : Nat
  second : Nat
deriving DecidableEq, Repr

/-- The `DATE_OPTIONS` constant (source lines 158-164). -/
structure DateOptions where
  month : String
  day : String
  year : String
  hour : String
  minute : String
  second : String
deriving DecidableEq, Repr

def DATE_OPTIONS : DateOptions :=
  { month := "2-digit", day := "2-digit", year := "numeric",
    hour := "2-digit", minute := "2-digit", second := "2-digit" }

/-- A decimal digit character: `digitChar n` is the digit for `n % 10`. -/
def digitChar (n : Nat) : Char := Char.ofNat (48 + n % 10)

/-- Two-digit zero-padded rendering, the output of a `"2-digit"` field of
`toLocaleString` for values below 100. -/
def pad2 (n : Nat) : String := String.mk [digitChar (n / 10), digitChar n]

/-- Four-digit rendering of a year, the output of the `"numeric"` year
field of `toLocaleString` for years 1000-9999. -/
def year4 (n : Nat) : String :=
  String.mk [digitChar (n / 1000), digitChar (n / 100), digitChar (n / 10), digitChar n]

/-- `formatDate` (source lines 192-194): renders an instant with
`Date.toLocaleString(locale, DATE_OPTIONS)`.  Modelled for the two
locales the repository exercises: `en-US` renders
`MM/DD/YYYY, hh:mm:ss AM|PM` (12-hour clock), while `de-DE` - the
default used by every other locale string in this model - renders
`DD.MM.YYYY, HH:MM:SS` (24-hour clock). -/
def formatDate (locale : String) (now : Instant) : String :=
  if locale = "en-US" then
    pad2 now.month ++ "/" ++ pad2 now.day ++ "/" ++ year4 now.year ++ ", " ++
      pad2 ((now.hour + 11) % 12 + 1) ++ ":" ++ pad2 now.minute ++ ":" ++ pad2 now.second ++
      (if now.hour < 12 then " AM" else " PM")
  else
    pad2 now.day ++ "." ++ pad2 now.month ++ "." ++ year4 now.year ++ ", " ++
      pad2 now.hour ++ ":" ++ pad2 now.minute ++ ":" ++ pad2 now.second

/-- JavaScript `String.prototype.split` with a single-character
separator, on the character list of the string: splits at every
occurrence of the separator. -/
def splitChar (sep : Char) : List Char → List (List Char)
  | [] => [[]]
  | c :: cs =>
    let r := splitChar sep cs
    if c = sep then [] :: r
    else
      match r with
      | [] => [[c]]
      | g :: gs => (c :: g) :: gs

/-- `String.prototype.toUpperCase` for the ASCII strings of this code:
upper-cases each character. -/
def toUpperCase (s : String) : String := String.mk (s.data.map Char.toUpper)

/-- `String.prototype.padStart(width)`: pads with spaces on the left up
to `width`; a string already at least `width` long is unchanged. -/
def padStart (width : Nat) (s : String) : String :=
  String.mk (List.replicate (width - s.length) ' ') ++ s

/-- A JavaScript value that can be passed as the `obj` payload
argument. `vFunc` stands for a function value (which `JSON.stringify`
maps to `undefined`). -/
inductive JSValue where
  | vNull
  | vUndefined
  | vBool (b : Bool)
  | vNum (n : Int)
  | vStr (s : String)
  | vArr (elems : List JSValue)
  | vObj (fields : List (String × JSValue))
  | vFunc

/-- JavaScript truthiness, as tested by `if (obj)` in `genLog` and
`if (info.obj)` in `createLogString`. -/
def truthy : JSValue → Bool
  | .vNull => false
  | .vUndefined => false
  | .vBool b => b
  | .vNum n => n ≠ 0
  | .vStr s => s ≠ ""
  | .vArr _ => true
  | .vObj _ => true
  | .vFunc => true

/-- JSON string escaping for the characters `JSON.stringify` escapes in
the strings this development manipulates. -/
def jsonEscapeChar (c : Char) : String :=
  if c = '"' then "\\\""
  else if c = '\\' then "\\\\"
  else if c = '\n' then "\\n"
  else if c = '\t' then "\\t"
  else if c = '\r' then "\\r"
  else String.singleton c

def jsonQuote (s : String) : String :=
  "\"" ++ String.join (s.data.map jsonEscapeChar) ++ "\""

mutual

/-- A model of `JSON.stringify`: `none` models the JavaScript result
`undefined` (for `undefined` and function values); inside arrays such
elements render as `null`, inside objects such members are dropped. -/
def jsonStringify : JSValue → Option String
  | .vNull => some "null"
  | .vUndefined => none
  | .vBool b => some (if b then "true" else "false")
  | .vNum n => some (toString n)
  | .vStr s => some (jsonQuote s)
  | .vArr elems => some ("[" ++ String.intercalate "," (jsonArrElems elems) ++ "]")
  | .vObj fields => some ("\x7b" ++ String.intercalate "," (jsonObjFields fields) ++ "\x7d")
  | .vFunc => none

def jsonArrElems : List JSValue → List String
  | [] => []
  | v :: vs => (jsonStringify v).getD "null" :: jsonArrElems vs

def jsonObjFields : List (String × JSValue) → List String
  | [] => []
  | (k, v) :: fs =>
    match jsonStringify v with
    | some s => (jsonQuote k ++ ":" ++ s) :: jsonObjFields fs
    | none => jsonObjFields fs

end

/-- JavaScript template-literal coercion of a `JSON.stringify` result:
`undefined` interpolates as the text `"undefined"`. -/
def jsTemplate : Option String → String
  | some s => s
  | none => "undefined"

/-- `createLogString` (source lines 203-213).  `obj` is the `info.obj`
field: `vUndefined` when `genLog` passed no payload.  The timestamp is
computed by `formatDate()` with no argument, i.e. at the default locale
`de-DE`, whatever the logger configuration says. -/
def createLogString (now : Instant) (level : Level) (message : String)
    (obj : JSValue) : String :=
  let logLevel := padStart 9 (toUpperCase (levelName level))
  let timestamp := formatDate "de-DE" now
  let msg := timestamp ++ " | " ++ logLevel ++ " | " ++ message
  if truthy obj then msg ++ " | " ++ jsTemplate (jsonStringify obj)
  else msg ++ " |"

/-- `genLog` (source lines 310-317) composed with the configured winston
engine: the result is the rendered line when the engine emits the
record, `none` when the level filter rejects it.  `genLog` forwards
`{ obj }` only when `obj` is truthy; otherwise `info.obj` is absent
(`vUndefined`). -/
def genLogLine (now : Instant) (threshold level : Level) (message : String)
    (obj : JSValue) : Option String :=
  if isEnabled level threshold then
    some (if truthy obj then createLogString now level message obj
          else createLogString now level message .vUndefined)
  else none

/-- The text a JavaScript template literal produces for an element of a
destructuring that may be `undefined`: a missing element interpolates as
`"undefined"`. -/
def destructure (parts : List (List Char)) (i : Nat) : List Char :=
  (parts.get? i).getD "undefined".data

/-- `_generateRoute` (source lines 242-248): renders `now` at the
configured locale, takes the part before the first `','`, splits it on
`'.'`, destructures into `[day, month, year]` and concatenates
`` `${route}-${year}${month}${day}` ``. -/
def _generateRoute (route : String) (dateLocale : String) (now : Instant) : String :=
  let dateString := formatDate dateLocale now
  let datePart := (splitChar ',' dateString.data).headD []
  let parts := splitChar '.' datePart
  let day := destructure parts 0
  let month := destructure parts 1
  let year := destructure parts 2
  let formattedDate := String.mk (year ++ month ++ day)
  route ++ "-" ++ formattedDate

/-- The filename argument `` `${this.route}-%DATE%.log` `` given to the
rotating-file transport in `_createWinstonLogger` (source line 271). -/
def rotatingFilenameTemplate (route : String) : String :=
  route ++ "-%DATE%.log"

/-- The `datePattern: 'YYYY-MM-DD'` of source line 272, rendered at a
rotation instant. -/
def renderDatePattern (now : Instant) : String :=
  year4 now.year ++ "-" ++ pad2 now.month ++ "-" ++ pad2 now.day

/-- Substitution of every `%DATE%` placeholder by `ds`, as the
rotating-file transport performs on its `filename` option. -/
def replaceDateTok (ds : List Char) : List Char → List Char
  | '%' :: 'D' :: 'A' :: 'T' :: 'E' :: '%' :: rest => ds ++ replaceDateTok ds rest
  | c :: rest => c :: replaceDateTok ds rest
  | [] => []

/-- The filename the rotating-file sink actually produces: the `%DATE%`
placeholder of the template substituted by the rendered date pattern. -/
def rotatingFilename (route : String) (now : Instant) : String :=
  String.mk (replaceDateTok (renderDatePattern now).data (rotatingFilenameTemplate route).data)

/-- The non-rotating filename `` `${this.route}.log` `` of source
line 279. -/
def plainFilename (route : String) : String := route ++ ".log"

/-- Decimal digit test, as in the `\d` of the test file's filename
regexes. -/
def isDigitCh (c : Char) : Bool := 48 ≤ c.toNat && c.toNat ≤ 57

/-- The character predicates of the suffix the double-date regex
`/.*-\d\x7b8\x7d-\d\x7b4\x7d-\d\x7b2\x7d-\d\x7b2\x7d\.log$/` of
`test/simple-filename-test.js` requires:
`-DDDDDDDD-DDDD-DD-DD.log` with `D` a decimal digit. -/
def doubleDateSuffix : List (Char → Bool) :=
  [fun c => c == '-'] ++ List.replicate 8 isDigitCh ++
  [fun c => c == '-'] ++ List.replicate 4 isDigitCh ++
  [fun c => c == '-'] ++ List.replicate 2 isDigitCh ++
  [fun c => c == '-'] ++ List.replicate 2 isDigitCh ++
  [fun c => c == '.', fun c => c == 'l', fun c => c == 'o', fun c => c == 'g']

/-- The test file's double-date detector: the filename ends in a
day-granularity `YYYYMMDD` date immediately followed by a
day-granularity `YYYY-MM-DD` date and the `.log` extension. -/
def doubleDateTest (s : String) : Bool :=
  let cs := s.data
  let k := doubleDateSuffix.length
  decide (k ≤ cs.length) &&
    ((cs.drop (cs.length - k)).zip doubleDateSuffix).all (fun p => p.2 p.1)

/-- `LoggerConfig`: the configuration record (source lines 146-153 give
the defaults; `src/index.d.ts` the field types). -/
structure LoggerConfig where
  logTracelevel : Level
  consoleOutput : String
  logPath : String
  dateLocale : String
  fileRotation : Bool
  maxFileSize : String
  maxFiles : String
deriving DecidableEq, Repr

/-- `DEFAULT_CONFIG` (source lines 146-153). -/
def DEFAULT_CONFIG : LoggerConfig :=
  { logTracelevel := .info, consoleOutput := "on", logPath := "./logs/",
    dateLocale := "de-DE", fileRotation := false, maxFileSize := "20m",
    maxFiles := "14d" }

/-- A partial configuration, as accepted by the constructor and
`updateConfig`: each field optionally present. -/
structure PartialConfig where
  logTracelevel : Option Level := none
  consoleOutput : Option String := none
  logPath : Option String := none
  dateLocale : Option String := none
  fileRotation : Option Bool := none
  maxFileSize : Option String := none
  maxFiles : Option String := none
deriving DecidableEq, Repr

/-- JavaScript object spread `\x7b ...base, ...patch \x7d`: a field
present in the patch overrides the base. -/
def mergeConfig (base : LoggerConfig) (p : PartialConfig) : LoggerConfig :=
  { logTracelevel := p.logTracelevel.getD base.logTracelevel,
    consoleOutput := p.consoleOutput.getD base.consoleOutput,
    logPath := p.logPath.getD base.logPath,
    dateLocale := p.dateLocale.getD base.dateLocale,
    fileRotation := p.fileRotation.getD base.fileRotation,
    maxFileSize := p.maxFileSize.getD base.maxFileSize,
    maxFiles := p.maxFiles.getD base.maxFiles }

/-- The state of an `AppLogger` instance: its configuration, its
route (computed once by the constructor), and whether the underlying
winston logger has been closed.  The source class has no own
closed-state flag; `engineClosed` models the state of the wrapped
engine after `close()`. -/
structure AppLoggerState where
  config : LoggerConfig
  route : String
  engineClosed : Bool
deriving DecidableEq, Repr

/-- The constructor (source lines 227-234): merges the defaults with the
given partial configuration, then derives the route once from the merged
configuration's locale and the construction instant. -/
def mkAppLogger (name : String) (cfg : PartialConfig) (now : Instant) : AppLoggerState :=
  let config := mergeConfig DEFAULT_CONFIG cfg
  { config := config,
    route := _generateRoute name config.dateLocale now,
    engineClosed := false }

/-- `close` (source lines 393-395): closes the underlying winston
logger; the facade keeps no other record of it. -/
def close (s : AppLoggerState) : AppLoggerState :=
  { s with engineClosed := true }

/-- `updateConfig` (source lines 409-413): merges the patch into the
current configuration and rebuilds the winston logger.  The route is not
recomputed. -/
def updateConfig (s : AppLoggerState) (patch : PartialConfig) : AppLoggerState :=
  { s with config := mergeConfig s.config patch, engineClosed := false }

/-- The outcome of one `genLog` call's completion signal. -/
inductive LogResult where
  | ok (emitted : Bool)
  | closedStateError
  | formatError
deriving DecidableEq, Repr

/-- The completion of a `genLog` call on a facade state (source lines
310-317).  The source performs no closed-state check and defines no
`ClosedStateError` or `FormatError` class: the call always resolves.
The record is emitted when the engine is open and the level filter
admits it; a closed engine has released its transports and writes
nothing. -/
def genLogResult (s : AppLoggerState) (level : Level) : LogResult :=
  .ok (!s.engineClosed && isEnabled level s.config.logTracelevel)

/-- The line a `genLog` call on a facade state renders, `none` when
nothing is emitted. -/
def facadeLogLine (s : AppLoggerState) (now : Instant) (level : Level)
    (message : String) (obj : JSValue) : Option String :=
  if s.engineClosed then none
  else genLogLine now s.config.logTracelevel level message obj

/-- A heap of configuration objects, to model JavaScript reference
semantics: an address is an index into the store. -/
structure Heap where
  objs : List LoggerConfig
deriving DecidableEq, Repr

def Heap.read (h : Heap) (a : Nat) : Option LoggerConfig := h.objs.get? a

def Heap.alloc (h : Heap) (v : LoggerConfig) : Heap × Nat :=
  (⟨h.objs ++ [v]⟩, h.objs.length)

def Heap.write (h : Heap) (a : Nat) (v : LoggerConfig) : Heap :=
  ⟨h.objs.set a v⟩

/-- `getConfig` (source lines 401-403): `return \x7b ...this.config \x7d` -
allocates a fresh object holding a copy of the fields of the logger's
internal configuration object at `addr`, and returns its address. -/
def getConfig (h : Heap) (addr : Nat) : Heap × Nat :=
  h.alloc ((h.read addr).getD DEFAULT_CONFIG)

/-! ## Helper lemmas -/

theorem splitChar_of_not_mem (sep : Char) {l : List Char} (h : sep ∉ l) :
    splitChar sep l = [l] := by
  induction l with
  | nil => rfl
  | cons c cs ih =>
    have hc : ¬(c = sep) := fun e => h (e ▸ List.mem_cons_self c cs)
    have hcs : sep ∉ cs := fun m => h (List.mem_cons_of_mem _ m)
    simp [splitChar, hc, ih hcs]

theorem splitChar_append (sep : Char) {l1 : List Char} (l2 : List Char)
    (h : sep ∉ l1) :
    splitChar sep (l1 ++ sep :: l2) = l1 :: splitChar sep l2 := by
  induction l1 with
  | nil => simp [splitChar]
  | cons c cs ih =>
    have hc : ¬(c = sep) := fun e => h (e ▸ List.mem_cons_self c cs)
    have hcs : sep ∉ cs := fun m => h (List.mem_cons_of_mem _ m)
    simp [splitChar, hc, ih hcs]

theorem digitChar_ne_comma (n : Nat) : digitChar n ≠ ',' := by
  unfold digitChar
  have hk : n % 10 < 10 := Nat.mod_lt _ (by norm_num)
  set k := n % 10 with hkdef
  interval_cases k <;> decide

theorem digitChar_ne_dot (n : Nat) : digitChar n ≠ '.' := by
  unfold digitChar
  have hk : n % 10 < 10 := Nat.mod_lt _ (by norm_num)
  set k := n % 10 with hkdef
  interval_cases k <;> decide

theorem comma_not_mem_pad2 (n : Nat) : ',' ∉ (pad2 n).data := by
  intro hmem
  simp [pad2] at hmem
  rcases hmem with h | h <;> exact digitChar_ne_comma _ h.symm

theorem dot_not_mem_pad2 (n : Nat) : '.' ∉ (pad2 n).data := by
  intro hmem
  simp [pad2] at hmem
  rcases hmem with h | h <;> exact digitChar_ne_dot _ h.symm

theorem comma_not_mem_year4 (n : Nat) : ',' ∉ (year4 n).data := by
  intro hmem
  simp [year4] at hmem
  rcases hmem with h | h | h | h <;> exact digitChar_ne_comma _ h.symm

theorem dot_not_mem_year4 (n : Nat) : '.' ∉ (year4 n).data := by
  intro hmem
  simp [year4] at hmem
  rcases hmem with h | h | h | h <;> exact digitChar_ne_dot _ h.symm

/-- The generic shape of `_generateRoute` at the default locale: the
route is the logical name, a dash, and the construction date in
`YYYYMMDD` order. -/
theorem generateRoute_deDE (name : String) (now : Instant) :
    _generateRoute name "de-DE" now =
      name ++ "-" ++ (year4 now.year ++ pad2 now.month ++ pad2 now.day) := by
  have hfd : formatDate "de-DE" now =
      String.mk (((pad2 now.day).data ++ '.' :: ((pad2 now.month).data ++
          '.' :: (year4 now.year).data)) ++
        ',' :: (' ' :: ((pad2 now.hour).data ++
          ':' :: ((pad2 now.minute).data ++ ':' :: (pad2 now.second).data)))) := rfl
  have hcomma : ',' ∉ ((pad2 now.day).data ++ '.' :: ((pad2 now.month).data ++
      '.' :: (year4 now.year).data)) := by
    intro hm
    rcases List.mem_append.mp hm with h | h
    · exact comma_not_mem_pad2 _ h
    · rcases List.mem_cons.mp h with h | h
      · exact absurd h (by decide)
      · rcases List.mem_append.mp h with h | h
        · exact comma_not_mem_pad2 _ h
        · rcases List.mem_cons.mp h with h | h
          · exact absurd h (by decide)
          · exact comma_not_mem_year4 _ h
  have hdot1 : '.' ∉ (pad2 now.day).data := dot_not_mem_pad2 _
  have hdot2 : '.' ∉ (pad2 now.month).data := dot_not_mem_pad2 _
  have hdot3 : '.' ∉ (year4 now.year).data := dot_not_mem_year4 _
  simp only [_generateRoute, hfd]
  rw [splitChar_append ',' _ hcomma]
  simp only [List.headD]
  rw [splitChar_append '.' _ hdot1, splitChar_append '.' _ hdot2,
    splitChar_of_not_mem '.' hdot3]
  simp only [destructure, List.get?]
  show name ++ "-" ++ String.mk ((year4 now.year).data ++ (pad2 now.month).data ++
      (pad2 now.day).data) = _
  rfl

/-! ## Claim theorems -/

/-- C1: a log call emits a record iff `rank(level) ≤ rank(threshold)`,
the seven levels carrying the fixed unique contiguous ranks
`exception = 0` through `debug = 6` with lower rank more severe; in
particular, with threshold `error` (rank 1) a `debug` call (rank 6)
emits nothing and an `exception` call (rank 0) emits. -/
theorem C1_severity_filter :
    (∀ (now : Instant) (threshold level : Level) (msg : String) (obj : JSValue),
        (genLogLine now threshold level msg obj).isSome =
          decide (LOGGING_LEVELS_levels level ≤ LOGGING_LEVELS_levels threshold)) ∧
    LOGGING_LEVELS_levels .exception = 0 ∧
    LOGGING_LEVELS_levels .error = 1 ∧
    LOGGING_LEVELS_levels .warn = 2 ∧
    LOGGING_LEVELS_levels .info = 3 ∧
    LOGGING_LEVELS_levels .http = 4 ∧
    LOGGING_LEVELS_levels .trace = 5 ∧
    LOGGING_LEVELS_levels .debug = 6 ∧
    (∀ l l' : Level, LOGGING_LEVELS_levels l = LOGGING_LEVELS_levels l' → l = l') ∧
    (∀ (now : Instant) (msg : String) (obj : JSValue),
        genLogLine now .error .debug msg obj = none) ∧
    (∀ (now : Instant) (msg : String) (obj : JSValue),
        (genLogLine now .error .exception msg obj).isSome = true) := by
  refine ⟨?_, rfl, rfl, rfl, rfl, rfl, rfl, rfl, ?_, ?_, ?_⟩
  · intro now threshold level msg obj
    by_cases h : LOGGING_LEVELS_levels level ≤ LOGGING_LEVELS_levels threshold <;>
      simp [genLogLine, isEnabled, h]
  · intro l l'
    cases l <;> cases l' <;> decide
  · intro now msg obj; rfl
  · intro now msg obj; rfl

/-- C3 counterexample: the route is NOT `<logicalName>-<YYYYMMDD>` for
every locale.  At locale `en-US` the date renders `MM/DD/YYYY`, the
dot-split finds no separator, and the destructured month and year are
undefined: the route becomes
`sensor-undefinedundefined05/26/2025`. -/
theorem C3_counterexample :
    _generateRoute "sensor" "en-US" ⟨2025, 5, 26, 23, 59, 59⟩ =
      "sensor-undefinedundefined05/26/2025" ∧
    _generateRoute "sensor" "en-US" ⟨2025, 5, 26, 23, 59, 59⟩ ≠ "sensor-20250526" :=
  ⟨by decide, by decide⟩

/-- C3 (amended): at the default locale `de-DE` - whose rendering the
dot-split of `_generateRoute` assumes - the route is
`<logicalName>-<YYYYMMDD>` with the components in year-month-day order,
zero-padded, no separators; it is a pure function of the
(logicalName, date) pair and insensitive to the time of day, as on the
spec's example instants. -/
theorem C3_route_yyyymmdd :
    (∀ (name : String) (now : Instant),
        _generateRoute name "de-DE" now =
          name ++ "-" ++ (year4 now.year ++ pad2 now.month ++ pad2 now.day)) ∧
    (∀ (name : String) (y mo d h1 mi1 s1 h2 mi2 s2 : Nat),
        _generateRoute name "de-DE" ⟨y, mo, d, h1, mi1, s1⟩ =
          _generateRoute name "de-DE" ⟨y, mo, d, h2, mi2, s2⟩) ∧
    _generateRoute "sensor" "de-DE" ⟨2025, 5, 26, 23, 59, 59⟩ = "sensor-20250526" ∧
    _generateRoute "sensor" "de-DE" ⟨2025, 5, 26, 0, 0, 1⟩ = "sensor-20250526" := by
  refine ⟨generateRoute_deDE, ?_, by decide, by decide⟩
  intro name y mo d h1 mi1 s1 h2 mi2 s2
  rw [generateRoute_deDE, generateRoute_deDE]

/-- C4: the rotating configuration DOES produce a filename with two
day-granularity date tokens: the route's own `YYYYMMDD` and the sink's
`YYYY-MM-DD` rotation date.  At the failing input (logger
`rotate-test`, default locale, 2025-05-26) the filename is
`rotate-test-20250526-2025-05-26.log`, which the double-date regex of
`test/simple-filename-test.js` flags; the non-rotating filename of the
same logger is not flagged. -/
theorem C4_double_date_bug :
    rotatingFilename (_generateRoute "rotate-test" "de-DE" ⟨2025, 5, 26, 10, 0, 0⟩)
        ⟨2025, 5, 26, 10, 0, 0⟩ = "rotate-test-20250526-2025-05-26.log" ∧
    doubleDateTest "rotate-test-20250526-2025-05-26.log" = true ∧
    doubleDateTest (plainFilename (_generateRoute "rotate-test" "de-DE"
        ⟨2025, 5, 26, 10, 0, 0⟩)) = false :=
  ⟨by decide, by decide, by decide⟩

/-- C2 counterexample: a present (non-null, non-omitted) payload is not
always serialized: the falsy payload `0` renders the no-payload line
ending in `" |"` instead of being extended with `" | 0"`. -/
theorem C2_counterexample :
    genLogLine ⟨2025, 5, 26, 23, 59, 59⟩ .info .info "Temp ok" (.vNum 0) =
      some "26.05.2025, 23:59:59 |      INFO | Temp ok |" ∧
    genLogLine ⟨2025, 5, 26, 23, 59, 59⟩ .info .info "Temp ok" (.vNum 0) ≠
      some "26.05.2025, 23:59:59 |      INFO | Temp ok | 0" :=
  ⟨by decide, by decide⟩

/-- C2 (amended): every emitted record renders as the single line
`<timestamp> | <label> | <message>` with the label the severity name
upper-cased and right-justified to exactly 9 characters; a TRUTHY
payload extends the line with `" | "` and its compact JSON
serialization, and with the payload absent the line ends `" |"`. -/
theorem C2_line_format :
    ∀ (now : Instant) (threshold level : Level) (msg : String),
      isEnabled level threshold = true →
      (∀ (p : JSValue) (s : String), truthy p = true → jsonStringify p = some s →
          genLogLine now threshold level msg p =
            some (formatDate "de-DE" now ++ " | " ++
              padStart 9 (toUpperCase (levelName level)) ++ " | " ++ msg ++ " | " ++ s)) ∧
      genLogLine now threshold level msg .vUndefined =
        some (formatDate "de-DE" now ++ " | " ++
          padStart 9 (toUpperCase (levelName level)) ++ " | " ++ msg ++ " |") ∧
      (padStart 9 (toUpperCase (levelName level))).length = 9 := by
  intro now threshold level msg hen
  refine ⟨?_, ?_, ?_⟩
  · intro p s hp hs
    simp [genLogLine, hen, createLogString, hp, hs, jsTemplate]
  · simp [genLogLine, hen, createLogString,
      show truthy JSValue.vUndefined = false from rfl]
  · cases level <;> decide

theorem C2_line_format_witness :
    isEnabled .exception .info = true ∧
    truthy (JSValue.vObj [("temp", .vNum 25)]) = true ∧
    jsonStringify (JSValue.vObj [("temp", .vNum 25)]) =
      some "\x7b\"temp\":25\x7d" ∧
    genLogLine ⟨2025, 5, 26, 23, 59, 59⟩ .info .exception "Temp ok"
        (.vObj [("temp", .vNum 25)]) =
      some ("26.05.2025, 23:59:59 | EXCEPTION | Temp ok | " ++
        "\x7b\"temp\":25\x7d") := by
  refine ⟨by decide, by decide, by decide, ?_⟩
  have h := (C2_line_format ⟨2025, 5, 26, 23, 59, 59⟩ .info .exception "Temp ok"
      (by decide)).1 (.vObj [("temp", .vNum 25)]) "\x7b\"temp\":25\x7d"
      (by decide) (by decide)
  rw [h]
  decide

/-- C10: a falsy payload (`0`, `false`, `""`, `null`) renders the line
exactly as if the payload were omitted: nothing is serialized and the
emitted line ends with the trailing `" |"` of the no-payload form. -/
theorem C10_falsy_payload :
    ∀ (now : Instant) (threshold level : Level) (msg : String) (p : JSValue),
      truthy p = false →
      genLogLine now threshold level msg p =
        genLogLine now threshold level msg .vUndefined ∧
      genLogLine now threshold level msg p =
        (if isEnabled level threshold then
          some (formatDate "de-DE" now ++ " | " ++
            padStart 9 (toUpperCase (levelName level)) ++ " | " ++ msg ++ " |")
        else none) := by
  intro now threshold level msg p hp
  have hu : truthy JSValue.vUndefined = false := rfl
  constructor
  · simp [genLogLine, hp, hu]
  · by_cases hen : isEnabled level threshold <;>
      simp [genLogLine, hen, hp, hu, createLogString]

theorem C10_falsy_payload_witness :
    truthy (JSValue.vNum 0) = false ∧
    truthy (JSValue.vBool false) = false ∧
    truthy (JSValue.vStr "") = false ∧
    genLogLine ⟨2025, 5, 26, 23, 59, 59⟩ .info .info "m" (.vNum 0) =
      genLogLine ⟨2025, 5, 26, 23, 59, 59⟩ .info .info "m" .vUndefined :=
  ⟨by decide, by decide, by decide,
    (C10_falsy_payload ⟨2025, 5, 26, 23, 59, 59⟩ .info .info "m" (.vNum 0)
      (by decide)).1⟩

/-- C5 counterexample: `close()` followed by `info()` does not fail with
a `ClosedStateError` - the source defines no such error and `genLog`
performs no closed-state check: the call resolves with nothing
written. -/
theorem C5_counterexample :
    genLogResult (close (mkAppLogger "svc" ({} : PartialConfig)
        ⟨2025, 5, 26, 10, 0, 0⟩)) .info = .ok false ∧
    genLogResult (close (mkAppLogger "svc" ({} : PartialConfig)
        ⟨2025, 5, 26, 10, 0, 0⟩)) .info ≠ .closedStateError :=
  ⟨by decide, by decide⟩

/-- C5 (amended): after `close()` every subsequent log call, at every
level, resolves without raising any error - in particular never with a
`ClosedStateError` - and emits no line: a silent no-op, not the
deterministic failure the specification mandates. -/
theorem C5_no_closed_check :
    ∀ (s : AppLoggerState) (level : Level),
      genLogResult (close s) level = .ok false ∧
      genLogResult (close s) level ≠ .closedStateError ∧
      (∀ (now : Instant) (msg : String) (obj : JSValue),
        facadeLogLine (close s) now level msg obj = none) := by
  intro s level
  have h1 : genLogResult (close s) level = .ok false := rfl
  refine ⟨h1, ?_, fun now msg obj => rfl⟩
  rw [h1]
  intro h
  exact LogResult.noConfusion h

/-- C6 counterexample: a payload that cannot be serialized to JSON text
(a function value - `JSON.stringify` yields `undefined`) does not fail
the call with a `FormatError`: the record is emitted with the payload
rendered as the literal text `undefined`. -/
theorem C6_counterexample :
    genLogLine ⟨2025, 5, 26, 23, 59, 59⟩ .info .info "m" .vFunc =
      some "26.05.2025, 23:59:59 |      INFO | m | undefined" ∧
    genLogResult (mkAppLogger "svc" ({} : PartialConfig)
        ⟨2025, 5, 26, 10, 0, 0⟩) .info ≠ .formatError :=
  ⟨by decide, by decide⟩

/-- C6 (amended): for a truthy payload that the serializer maps to no
text, the call does not fail (no `FormatError` exists in the source):
it resolves normally and the record is emitted - not dropped - with the
payload rendered as the literal `undefined`. -/
theorem C6_unserializable_payload :
    ∀ (s : AppLoggerState) (now : Instant) (level : Level) (msg : String)
      (obj : JSValue),
      truthy obj = true → jsonStringify obj = none →
      s.engineClosed = false → isEnabled level s.config.logTracelevel = true →
      genLogResult s level = .ok true ∧
      facadeLogLine s now level msg obj =
        some (formatDate "de-DE" now ++ " | " ++
          padStart 9 (toUpperCase (levelName level)) ++ " | " ++ msg ++
          " | " ++ "undefined") := by
  intro s now level msg obj hobj hser hopen hen
  constructor
  · simp [genLogResult, hopen, hen]
  · simp [facadeLogLine, hopen, genLogLine, hen, createLogString, hobj, hser,
      jsTemplate]

theorem C6_unserializable_payload_witness :
    truthy JSValue.vFunc = true ∧
    jsonStringify JSValue.vFunc = none ∧
    (mkAppLogger "svc" ({} : PartialConfig) ⟨2025, 5, 26, 10, 0, 0⟩).engineClosed
      = false ∧
    facadeLogLine (mkAppLogger "svc" ({} : PartialConfig) ⟨2025, 5, 26, 10, 0, 0⟩)
        ⟨2025, 5, 26, 23, 59, 59⟩ .info "m" .vFunc =
      some "26.05.2025, 23:59:59 |      INFO | m | undefined" := by
  refine ⟨by decide, rfl, by decide, ?_⟩
  have h := (C6_unserializable_payload
      (mkAppLogger "svc" ({} : PartialConfig) ⟨2025, 5, 26, 10, 0, 0⟩)
      ⟨2025, 5, 26, 23, 59, 59⟩ .info "m" .vFunc
      (by decide) rfl (by decide) (by decide)).2
  rw [h]
  decide

theorem isPrefixOf_self_append (l r : List Char) : l.isPrefixOf (l ++ r) = true := by
  induction l with
  | nil => simp [List.isPrefixOf]
  | cons c cs ih => simp [List.isPrefixOf, ih]

/-- C7 counterexample: the line timestamp is not rendered at the
Logger's configured date locale.  With `dateLocale: "en-US"` (whose
formatter output at the instant is `05/26/2025, 11:59:59 PM`) the
emitted line still begins with the `de-DE` timestamp
`26.05.2025, 23:59:59`, because `createLogString` calls `formatDate()`
without the configured locale. -/
theorem C7_counterexample :
    (mkAppLogger "test-custom" { dateLocale := some "en-US" }
        ⟨2025, 5, 26, 23, 59, 59⟩).config.dateLocale = "en-US" ∧
    facadeLogLine (mkAppLogger "test-custom" { dateLocale := some "en-US" }
          ⟨2025, 5, 26, 23, 59, 59⟩)
        ⟨2025, 5, 26, 23, 59, 59⟩ .info "start" .vUndefined =
      some "26.05.2025, 23:59:59 |      INFO | start |" ∧
    formatDate "en-US" ⟨2025, 5, 26, 23, 59, 59⟩ = "05/26/2025, 11:59:59 PM" ∧
    ("05/26/2025, 11:59:59 PM".data.isPrefixOf
      "26.05.2025, 23:59:59 |      INFO | start |".data) = false :=
  ⟨by decide, by decide, by decide, by decide⟩

/-- C7 (amended): every emitted line begins with the timestamp produced
at emission time by `formatDate` at the fixed default locale `de-DE`
(rendering `DD.MM.YYYY, HH:MM:SS`), regardless of the configured
`dateLocale`; the `DATE_OPTIONS` fields are month/day 2-digit, year
numeric, hour/minute/second 2-digit. -/
theorem C7_timestamp_default_locale :
    (∀ (s : AppLoggerState) (now : Instant) (level : Level) (msg : String)
        (obj : JSValue),
      (facadeLogLine s now level msg obj).all
        (fun line => (formatDate "de-DE" now).data.isPrefixOf line.data) = true) ∧
    (∀ now : Instant, formatDate "de-DE" now =
      pad2 now.day ++ "." ++ pad2 now.month ++ "." ++ year4 now.year ++ ", " ++
        pad2 now.hour ++ ":" ++ pad2 now.minute ++ ":" ++ pad2 now.second) ∧
    DATE_OPTIONS.month = "2-digit" ∧ DATE_OPTIONS.day = "2-digit" ∧
    DATE_OPTIONS.year = "numeric" ∧ DATE_OPTIONS.hour = "2-digit" ∧
    DATE_OPTIONS.minute = "2-digit" ∧ DATE_OPTIONS.second = "2-digit" := by
  refine ⟨?_, fun now => rfl, rfl, rfl, rfl, rfl, rfl, rfl⟩
  intro s now level msg obj
  unfold facadeLogLine
  by_cases hc : s.engineClosed
  · simp [hc]
  · simp only [hc, Bool.false_eq_true, if_false]
    unfold genLogLine
    by_cases hen : isEnabled level s.config.logTracelevel
    · simp only [hen, if_true]
      have hu : truthy JSValue.vUndefined = false := rfl
      by_cases ho : truthy obj <;>
        simp [ho, hu, createLogString, Option.all, String.data_append,
          List.append_assoc, isPrefixOf_self_append, List.prefix_append]
    · simp [hen]

/-- C8: the route derived at construction is fixed for the instance's
lifetime: `updateConfig` and `close` leave it unchanged, any sequence of
`updateConfig` calls leaves it at its construction-time value, and that
value depends only on the construction-time locale and instant (later
wall-clock instants never enter). -/
theorem C8_route_fixed :
    (∀ (s : AppLoggerState) (patch : PartialConfig),
        (updateConfig s patch).route = s.route) ∧
    (∀ s : AppLoggerState, (close s).route = s.route) ∧
    (∀ (name : String) (cfg : PartialConfig) (now : Instant)
        (patches : List PartialConfig),
        (patches.foldl updateConfig (mkAppLogger name cfg now)).route =
          _generateRoute name (mergeConfig DEFAULT_CONFIG cfg).dateLocale now) := by
  have key : ∀ (patches : List PartialConfig) (s : AppLoggerState),
      (patches.foldl updateConfig s).route = s.route := by
    intro patches
    induction patches with
    | nil => intro s; rfl
    | cons p ps ih => intro s; rw [List.foldl_cons, ih]; rfl
  refine ⟨fun s patch => rfl, fun s => rfl, ?_⟩
  intro name cfg now patches
  rw [key]
  rfl

theorem get?_append_lt {α : Type} :
    ∀ (l1 l2 : List α) (n : Nat), n < l1.length → (l1 ++ l2).get? n = l1.get? n
  | [], _, n, h => absurd h (by simp)
  | _ :: _, _, 0, _ => rfl
  | _ :: l1, l2, n + 1, h => get?_append_lt l1 l2 n (Nat.lt_of_succ_lt_succ h)

theorem get?_append_length {α : Type} :
    ∀ (l : List α) (x : α), (l ++ [x]).get? l.length = some x
  | [], _ => rfl
  | _ :: l, x => get?_append_length l x

theorem get?_set_ne {α : Type} :
    ∀ (l : List α) (i j : Nat) (x : α), i ≠ j → (l.set i x).get? j = l.get? j
  | [], _, _, _, _ => rfl
  | _ :: _, 0, 0, _, h => absurd rfl h
  | _ :: _, 0, _ + 1, _, _ => rfl
  | _ :: _, _ + 1, 0, _, _ => rfl
  | _ :: l, i + 1, j + 1, x, h =>
    get?_set_ne l i j x (fun e => h (by rw [e]))

theorem get?_eq_some_of_lt {α : Type} :
    ∀ (l : List α) (n : Nat), n < l.length → ∃ a, l.get? n = some a
  | [], n, h => absurd h (by simp)
  | a :: _, 0, _ => ⟨a, rfl⟩
  | _ :: l, n + 1, h => get?_eq_some_of_lt l n (Nat.lt_of_succ_lt_succ h)

/-- C9: two `getConfig` calls with no intervening `updateConfig` return
equal snapshots; each snapshot is a copy at a fresh address, not the
internal configuration object, so writing through a returned snapshot
changes neither the logger's internal configuration nor what a later
`getConfig` returns. -/
theorem C9_getConfig_snapshot :
    ∀ (h : Heap) (addr : Nat), addr < h.objs.length →
    ∀ v : LoggerConfig,
      (getConfig (getConfig h addr).1 addr).1.read (getConfig h addr).2 =
        (getConfig (getConfig h addr).1 addr).1.read
          (getConfig (getConfig h addr).1 addr).2 ∧
      (getConfig h addr).2 ≠ addr ∧
      ((getConfig h addr).1.write (getConfig h addr).2 v).read addr = h.read addr ∧
      (getConfig ((getConfig h addr).1.write (getConfig h addr).2 v) addr).1.read
          (getConfig ((getConfig h addr).1.write (getConfig h addr).2 v) addr).2 =
        h.read addr := by
  intro h addr ha v
  obtain ⟨cfg, hcfg⟩ := get?_eq_some_of_lt h.objs addr ha
  have hne : h.objs.length ≠ addr := Nat.ne_of_gt ha
  have hread1 : (getConfig h addr).1.read addr = h.read addr := by
    simp only [getConfig, Heap.alloc, Heap.read]
    exact get?_append_lt h.objs _ addr ha
  refine ⟨?_, hne, ?_, ?_⟩
  · -- both snapshots hold the copied configuration
    simp only [getConfig, Heap.alloc, Heap.read] at hread1 ⊢
    rw [get?_append_lt _ _ _ (by simp [Nat.lt_succ_of_lt ha] : h.objs.length <
        (h.objs ++ [(h.objs.get? addr).getD DEFAULT_CONFIG]).length)]
    rw [get?_append_length, get?_append_length, hread1]
  · -- writing through the snapshot address leaves the internal object intact
    simp only [getConfig, Heap.alloc, Heap.write, Heap.read]
    rw [get?_set_ne _ _ _ _ hne]
    exact get?_append_lt h.objs _ addr ha
  · -- a later getConfig still returns the internal configuration
    simp only [getConfig, Heap.alloc, Heap.write, Heap.read]
    rw [get?_append_length]
    rw [get?_set_ne _ _ _ _ hne, get?_append_lt h.objs _ addr ha]
    have hcfg2 : h.objs[addr]? = some cfg := by
      rw [← List.get?_eq_getElem?]
      exact hcfg
    simp [Heap.read, hcfg2]

theorem C9_getConfig_snapshot_witness :
    0 < (Heap.mk [DEFAULT_CONFIG]).objs.length ∧
    ((getConfig (Heap.mk [DEFAULT_CONFIG]) 0).1.write
        (getConfig (Heap.mk [DEFAULT_CONFIG]) 0).2
        { DEFAULT_CONFIG with logTracelevel := .error }).read 0 =
      (Heap.mk [DEFAULT_CONFIG]).read 0 :=
  ⟨by decide,
    (C9_getConfig_snapshot (Heap.mk [DEFAULT_CONFIG]) 0 (by decide)
      { DEFAULT_CONFIG with logTracelevel := .error }).2.2.1⟩
